import Mathlib

/-!
Verification of `analyze_results.py` from the ActiveMotionPlanning repository.

The script loads a simulation-results archive (keys `ego`, `human`, `beta`,
`theta`, `t_beta`, `t_theta`, `PassInter`, `Collision`), aligns the beta
estimate series with the theta series, computes derived metrics
(beta absolute error, inter-vehicle Euclidean distance, velocities in km/h),
renders plot panels, and writes a fixed-format key-statistics block both to
standard output and to `{output_dir}/key_statistics.txt`.

Numeric data is embedded with `ℚ` (exact rationals) for the archive contents,
and `ℝ` where the script takes square roots (`np.sqrt`, `np.std`).
-/

namespace AnalyzeResults

/-- A successfully loaded archive: the eight fields read at lines 24-31 of
`analyze_results.py`.  Trajectories are lists of rows, each row a list of
columns `[x, y, heading, velocity, ...]`. -/
structure Archive where
  ego : List (List ℚ)
  human : List (List ℚ)
  beta : List ℚ
  theta : List ℚ
  t_beta : ℚ
  t_theta : String
  PassInter : Bool
  Collision : Bool
deriving DecidableEq

/-- The raw npz file: each required key may be present or absent. -/
structure NpzFile where
  ego : Option (List (List ℚ))
  human : Option (List (List ℚ))
  beta : Option (List ℚ)
  theta : Option (List ℚ)
  t_beta : Option ℚ
  t_theta : Option String
  PassInter : Option Bool
  Collision : Option Bool
deriving DecidableEq

/-- Loading (lines 22-31): each field is read in order; a missing key raises
(`none`) before anything else happens. -/
def loadArchive (f : NpzFile) : Option Archive :=
  f.ego.bind fun e =>
  f.human.bind fun hu =>
  f.beta.bind fun b =>
  f.theta.bind fun th =>
  f.t_beta.bind fun tb =>
  f.t_theta.bind fun tt =>
  f.PassInter.bind fun p =>
  f.Collision.map fun c =>
  { ego := e, human := hu, beta := b, theta := th,
    t_beta := tb, t_theta := tt, PassInter := p, Collision := c }

/-- Alignment rule (lines 50-55): if `len(beta_est) == len(theta_est) + 1`,
drop the first element; otherwise use `beta_est` unmodified. -/
def beta_est_plot (a : Archive) : List ℚ :=
  if a.beta.length = a.theta.length + 1 then a.beta.tail else a.beta

/-- Column extraction, `traj[:, j]` in numpy. -/
def column (t : List (List ℚ)) (j : ℕ) : List ℚ :=
  t.map fun r => r.getD j 0

/-- Elementwise difference of two numpy 1-D arrays. -/
def seriesSub (xs ys : List ℚ) : List ℚ :=
  List.zipWith (fun x y => x - y) xs ys

/-- Squared inter-vehicle distances (inside the `np.sqrt` at line 139):
`(ego[:,0]-human[:,0])**2 + (ego[:,1]-human[:,1])**2`. -/
def distancesSq (a : Archive) : List ℚ :=
  List.zipWith (fun dx2 dy2 => dx2 + dy2)
    ((seriesSub (column a.ego 0) (column a.human 0)).map fun d => d ^ 2)
    ((seriesSub (column a.ego 1) (column a.human 1)).map fun d => d ^ 2)

/-- Inter-vehicle distances (line 139): elementwise square root. -/
noncomputable def distances (a : Archive) : List ℝ :=
  (distancesSq a).map fun q : ℚ => Real.sqrt (q : ℝ)

/-- Beta absolute error series (line 108): `np.abs(beta_est_plot - true_beta)`. -/
def beta_error (a : Archive) : List ℚ :=
  (beta_est_plot a).map fun b => |b - a.t_beta|

/-- `np.mean` of a rational series. -/
def mean (l : List ℚ) : ℚ := l.sum / l.length

/-- `np.mean` of a real series. -/
noncomputable def meanR (l : List ℝ) : ℝ := l.sum / l.length

/-- Population variance, the quantity under the square root of `np.std`. -/
def variance (l : List ℚ) : ℚ := mean (l.map fun x => (x - mean l) ^ 2)

/-- `np.std`: square root of the population variance. -/
noncomputable def stdR (l : List ℚ) : ℝ := Real.sqrt ((variance l : ℚ) : ℝ)

/-- `np.min` of a real series (errors on empty input; default 0 here). -/
noncomputable def listMin : List ℝ → ℝ
  | [] => 0
  | x :: xs => xs.foldl min x

/-- Last element of a rational series, `arr[-1]` (default 0 on empty). -/
def finalOf (l : List ℚ) : ℚ := l.getLastD 0

/-- Final beta estimate, `beta_est_plot[-1]` (line 168). -/
def finalBeta (a : Archive) : ℚ := finalOf (beta_est_plot a)

/-- Final theta probability, `theta_est[-1]` (line 172). -/
def finalTheta (a : Archive) : ℚ := finalOf a.theta

/-- Final ego velocity in km/h, `ego_traj[-1, 3] * 3.6` (line 175). -/
def finalEgoVelKmh (a : Archive) : ℚ := finalOf (column a.ego 3) * 3.6

/-- Final human velocity in km/h, `human_traj[-1, 3] * 3.6` (line 176). -/
def finalHumanVelKmh (a : Archive) : ℚ := finalOf (column a.human 3) * 3.6

/-- The velocity panel (lines 150-151): both columns scaled by 3.6. -/
structure VelocityPanel where
  egoSeries : List ℚ
  humanSeries : List ℚ
deriving DecidableEq

/-- Panel 6 of the figure: `ego_traj[:, 3] * 3.6` and `human_traj[:, 3] * 3.6`. -/
def velocityPanel (a : Archive) : VelocityPanel :=
  { egoSeries := (column a.ego 3).map fun v => v * 3.6
    humanSeries := (column a.human 3).map fun v => v * 3.6 }

/-- The theta panel (lines 117-128): a label, the plotted series, and the
ground-truth reference line. -/
structure ThetaPanel where
  label : String
  series : List ℚ
  refLine : ℚ
deriving DecidableEq

/-- Panel 4 of the figure: the branch at line 118 tests `true_theta == 'a'`;
both branches plot `theta_est` as-is with a reference line at 1.0. -/
def thetaPanel (a : Archive) : ThetaPanel :=
  if a.t_theta = "a" then
    { label := "P(Attentive)", series := a.theta, refLine := 1 }
  else
    { label := "P(Distracted)", series := a.theta, refLine := 1 }

/-- Render an integer scaled by `10 ^ d` as a fixed-point decimal string with
`d` digits after the point. -/
def fmtInt (n : ℤ) (d : ℕ) : String :=
  let m := n.natAbs
  let ip := Nat.repr (m / 10 ^ d)
  let fp := Nat.repr (m % 10 ^ d)
  let pad := String.mk (List.replicate (d - fp.length) '0')
  (if n < 0 then "-" else "") ++ ip ++ "." ++ pad ++ fp

/-- Python `f"{x:.df}"` formatting of an exact rational value. -/
def fmtFixed (x : ℚ) (d : ℕ) : String := fmtInt ⌊x * 10 ^ d + 1 / 2⌋ d

/-- Python `f"{x:.df}"` formatting of a real value. -/
noncomputable def fmtFixedReal (x : ℝ) (d : ℕ) : String := fmtInt ⌊x * 10 ^ d + 1 / 2⌋ d

/-- The 60-character separator `"=" * 60`. -/
def sep60 : String := String.mk (List.replicate 60 '=')

/-- The Key Statistics block printed to standard output (lines 165-177). -/
noncomputable def keyStatsStdoutLines (a : Archive) : List String :=
  [ sep60,
    "Key Statistics",
    sep60,
    "Final Beta Estimation: " ++ fmtFixed (finalBeta a) 4,
    "Beta Estimation Error (Final): " ++ fmtFixed |finalBeta a - a.t_beta| 4,
    "Mean Beta Estimation Error: " ++ fmtFixed (mean (beta_error a)) 4,
    "Std Beta Estimation Error: " ++ fmtFixedReal (stdR (beta_error a)) 4,
    "Final Theta Probability: " ++ fmtFixed (finalTheta a) 4,
    "Min Distance Between Vehicles: " ++ fmtFixedReal (listMin (distances a)) 2 ++ " m",
    "Mean Distance Between Vehicles: " ++ fmtFixedReal (meanR (distances a)) 2 ++ " m",
    "Final Ego Velocity: " ++ fmtFixed (finalEgoVelKmh a) 2 ++ " km/h",
    "Final Human Velocity: " ++ fmtFixed (finalHumanVelKmh a) 2 ++ " km/h",
    sep60 ]

/-- The Key Statistics block written to the text file (lines 182-194). -/
noncomputable def keyStatsFileLines (a : Archive) : List String :=
  [ sep60,
    "Key Statistics",
    sep60,
    "Final Beta Estimation: " ++ fmtFixed (finalBeta a) 4,
    "Beta Estimation Error (Final): " ++ fmtFixed |finalBeta a - a.t_beta| 4,
    "Mean Beta Estimation Error: " ++ fmtFixed (mean (beta_error a)) 4,
    "Std Beta Estimation Error: " ++ fmtFixedReal (stdR (beta_error a)) 4,
    "Final Theta Probability: " ++ fmtFixed (finalTheta a) 4,
    "Min Distance Between Vehicles: " ++ fmtFixedReal (listMin (distances a)) 2 ++ " m",
    "Mean Distance Between Vehicles: " ++ fmtFixedReal (meanR (distances a)) 2 ++ " m",
    "Final Ego Velocity: " ++ fmtFixed (finalEgoVelKmh a) 2 ++ " km/h",
    "Final Human Velocity: " ++ fmtFixed (finalHumanVelKmh a) 2 ++ " km/h",
    sep60 ]

/-- Content of `key_statistics.txt`: each line terminated by a newline. -/
noncomputable def keyStatsFileContent (a : Archive) : String :=
  String.join ((keyStatsFileLines a).map fun l => l ++ "\n")

/-- The observable file outputs of one run. -/
structure Output where
  pngPath : String
  statsPath : String
  statsContent : String

/-- The whole run: load the archive (aborting on a missing field, in which
case no file is written), then produce the plot file and the statistics
file. -/
noncomputable def analyze_and_visualize_results (f : NpzFile) (result_dir : String) :
    Option Output :=
  (loadArchive f).map fun a =>
    { pngPath := result_dir ++ "/analysis_results.png"
      statsPath := result_dir ++ "/key_statistics.txt"
      statsContent := keyStatsFileContent a }

/-- A minimal archive whose `t_theta` is the literal string `"attentive"`. -/
def archAttentive : Archive :=
  { ego := [[0, 0, 0, 1]], human := [[0, 0, 0, 1]],
    beta := [1/2], theta := [9/10],
    t_beta := 1/2, t_theta := "attentive",
    PassInter := true, Collision := false }

/-- C1 counterexample: the claim asserts the theta panel label is
"P(Attentive)" iff `t_theta = "attentive"`; but on an archive with
`t_theta = "attentive"` the code's branch tests `== 'a'` and labels the
panel "P(Distracted)". -/
theorem thetaLabel_spec_counterexample :
    ¬ ((thetaPanel archAttentive).label = "P(Attentive)" ↔
        archAttentive.t_theta = "attentive") := by
  decide

/-- C1 (amended): the theta panel is labeled "P(Attentive)" iff `t_theta`
equals the string `"a"`; for any other value (including "attentive" and
"distracted") the label is "P(Distracted)"; in both cases the ground-truth
reference line is at 1.0 and the stored theta series is displayed
unmodified. -/
theorem thetaPanel_label_amended (a : Archive) :
    ((thetaPanel a).label = "P(Attentive)" ↔ a.t_theta = "a") ∧
    (a.t_theta ≠ "a" → (thetaPanel a).label = "P(Distracted)") ∧
    (thetaPanel a).refLine = 1 ∧
    (thetaPanel a).series = a.theta := by
  unfold thetaPanel
  by_cases h : a.t_theta = "a" <;> simp [h]

/-- Witness for the amended C1 at a concrete archive: `"attentive"` is not
`"a"`, so the label falls to "P(Distracted)". -/
theorem thetaPanel_label_amended_witness :
    (archAttentive.t_theta ≠ "a") ∧
    (thetaPanel archAttentive).label = "P(Distracted)" :=
  ⟨by decide, (thetaPanel_label_amended archAttentive).2.1 (by decide)⟩

/-- C2: if `len(beta_est) = len(theta_est) + 1` the aligned beta series is
`beta_est[1:]` and has length `len(theta_est)`; for every other length
combination (in particular equal lengths) the series is used unmodified. -/
theorem beta_alignment (a : Archive) :
    (a.beta.length = a.theta.length + 1 →
      beta_est_plot a = a.beta.drop 1 ∧
      (beta_est_plot a).length = a.theta.length) ∧
    (a.beta.length = a.theta.length →
      beta_est_plot a = a.beta) ∧
    (a.beta.length ≠ a.theta.length + 1 →
      beta_est_plot a = a.beta) := by
  refine ⟨fun h => ?_, fun h => ?_, fun h => ?_⟩
  · rw [beta_est_plot, if_pos h, ← List.drop_one]
    refine ⟨rfl, ?_⟩
    simp [List.length_drop, h]
  · rw [beta_est_plot, if_neg (by omega)]
  · rw [beta_est_plot, if_neg h]

/-- Witness for C2 at concrete inputs: a one-longer beta series is trimmed,
an equal-length one is kept. -/
theorem beta_alignment_witness :
    (beta_est_plot { archAttentive with beta := [1, 2], theta := [5] } = [2] ∧
      (beta_est_plot { archAttentive with beta := [1, 2], theta := [5] }).length = 1) ∧
    beta_est_plot { archAttentive with beta := [1, 2], theta := [5, 6] } = [1, 2] :=
  ⟨(beta_alignment { archAttentive with beta := [1, 2], theta := [5] }).1 (by decide),
   (beta_alignment { archAttentive with beta := [1, 2], theta := [5, 6] }).2.1 (by decide)⟩

/-- C3: when any of the eight required fields is absent, the run aborts
during loading and produces no output: neither `analysis_results.png` nor
`key_statistics.txt` is created. -/
theorem load_failure_no_output (f : NpzFile) (dir : String)
    (h : f.ego = none ∨ f.human = none ∨ f.beta = none ∨ f.theta = none ∨
      f.t_beta = none ∨ f.t_theta = none ∨ f.PassInter = none ∨ f.Collision = none) :
    analyze_and_visualize_results f dir = none := by
  obtain ⟨e, hu, b, th, tb, tt, p, c⟩ := f
  simp only [analyze_and_visualize_results, loadArchive] at *
  cases e <;> cases hu <;> cases b <;> cases th <;>
    cases tb <;> cases tt <;> cases p <;> cases c <;> simp_all

/-- A file missing only the `t_theta` key. -/
def npzMissingTheta : NpzFile :=
  { ego := some [[0, 0, 0, 1]], human := some [[0, 0, 0, 1]],
    beta := some [1/2], theta := some [9/10],
    t_beta := some (1/2), t_theta := none,
    PassInter := some true, Collision := some false }

/-- Witness for C3: the concrete file lacking `t_theta` yields no output. -/
theorem load_failure_no_output_witness :
    (npzMissingTheta.t_theta = none) ∧
    analyze_and_visualize_results npzMissingTheta "./result" = none :=
  ⟨rfl, load_failure_no_output npzMissingTheta "./result"
    (Or.inr (Or.inr (Or.inr (Or.inr (Or.inr (Or.inl rfl))))))⟩

/-- C7: the beta absolute error at each aligned step is
`|aligned_beta[i] - true_beta|`, is non-negative, and vanishes exactly when
the aligned estimate equals the true beta. -/
theorem beta_error_abs (a : Archive) (i : ℕ) (hi : i < (beta_error a).length) :
    (beta_error a).getD i 0 = |(beta_est_plot a).getD i 0 - a.t_beta| ∧
    0 ≤ (beta_error a).getD i 0 ∧
    ((beta_error a).getD i 0 = 0 ↔ (beta_est_plot a).getD i 0 = a.t_beta) := by
  have hlen : i < (beta_est_plot a).length := by
    simpa [beta_error] using hi
  have h1 : (beta_error a).getD i 0 = |(beta_est_plot a).getD i 0 - a.t_beta| := by
    simp [beta_error, List.getD_eq_getElem?_getD,
      List.getElem?_map, List.getElem?_eq_getElem hlen]
  refine ⟨h1, ?_, ?_⟩
  · rw [h1]; exact abs_nonneg _
  · rw [h1, abs_eq_zero, sub_eq_zero]

/-- Witness for C7 at a concrete archive and step. -/
theorem beta_error_abs_witness :
    (0 < (beta_error archAttentive).length) ∧
    ((beta_error archAttentive).getD 0 0 =
        |(beta_est_plot archAttentive).getD 0 0 - archAttentive.t_beta| ∧
      0 ≤ (beta_error archAttentive).getD 0 0 ∧
      ((beta_error archAttentive).getD 0 0 = 0 ↔
        (beta_est_plot archAttentive).getD 0 0 = archAttentive.t_beta)) :=
  ⟨by decide, beta_error_abs archAttentive 0 (by decide)⟩

/-- C8: every displayed velocity (both panel series) and every reported final
velocity equals the raw column-3 value multiplied by exactly 3.6, and the two
statistics lines render exactly those products. -/
theorem velocity_scaling (a : Archive) (i : ℕ)
    (hie : i < a.ego.length) (hih : i < a.human.length) :
    (velocityPanel a).egoSeries.getD i 0 = (column a.ego 3).getD i 0 * 3.6 ∧
    (velocityPanel a).humanSeries.getD i 0 = (column a.human 3).getD i 0 * 3.6 ∧
    finalEgoVelKmh a = (column a.ego 3).getLastD 0 * 3.6 ∧
    finalHumanVelKmh a = (column a.human 3).getLastD 0 * 3.6 ∧
    (keyStatsFileLines a).getD 10 "" =
      "Final Ego Velocity: " ++ fmtFixed ((column a.ego 3).getLastD 0 * 3.6) 2 ++ " km/h" ∧
    (keyStatsFileLines a).getD 11 "" =
      "Final Human Velocity: " ++ fmtFixed ((column a.human 3).getLastD 0 * 3.6) 2 ++ " km/h" := by
  refine ⟨?_, ?_, rfl, rfl, rfl, rfl⟩
  · simp [velocityPanel, column, List.getD_eq_getElem?_getD, List.getElem?_map,
      List.getElem?_eq_getElem hie]
  · simp [velocityPanel, column, List.getD_eq_getElem?_getD, List.getElem?_map,
      List.getElem?_eq_getElem hih]

/-- Witness for C8 at a concrete archive and step. -/
theorem velocity_scaling_witness :
    (0 < archAttentive.ego.length ∧ 0 < archAttentive.human.length) ∧
    ((velocityPanel archAttentive).egoSeries.getD 0 0 =
        (column archAttentive.ego 3).getD 0 0 * 3.6 ∧
      (velocityPanel archAttentive).humanSeries.getD 0 0 =
        (column archAttentive.human 3).getD 0 0 * 3.6 ∧
      finalEgoVelKmh archAttentive = (column archAttentive.ego 3).getLastD 0 * 3.6 ∧
      finalHumanVelKmh archAttentive = (column archAttentive.human 3).getLastD 0 * 3.6 ∧
      (keyStatsFileLines archAttentive).getD 10 "" =
        "Final Ego Velocity: " ++
          fmtFixed ((column archAttentive.ego 3).getLastD 0 * 3.6) 2 ++ " km/h" ∧
      (keyStatsFileLines archAttentive).getD 11 "" =
        "Final Human Velocity: " ++
          fmtFixed ((column archAttentive.human 3).getLastD 0 * 3.6) 2 ++ " km/h") :=
  ⟨⟨by decide, by decide⟩, velocity_scaling archAttentive 0 (by decide) (by decide)⟩

/-- The spec-side quantity for C6: the Euclidean norm of the difference of two
planar points, taken in `EuclideanSpace ℝ (Fin 2)`. -/
noncomputable def euclideanNormOfDiff (p q : ℚ × ℚ) : ℝ :=
  ‖((WithLp.equiv 2 (Fin 2 → ℝ)).symm
      ![((p.1 - q.1 : ℚ) : ℝ), ((p.2 - q.2 : ℚ) : ℝ)] : EuclideanSpace ℝ (Fin 2))‖

/-- Position of a trajectory at step `i`: columns 0 and 1. -/
def posAt (t : List (List ℚ)) (i : ℕ) : ℚ × ℚ :=
  ((column t 0).getD i 0, (column t 1).getD i 0)

/-- The planar Euclidean norm unfolds to the square root of the sum of the
squared coordinate differences. -/
theorem euclideanNormOfDiff_eq (p q : ℚ × ℚ) :
    euclideanNormOfDiff p q =
      Real.sqrt (((p.1 - q.1 : ℚ) : ℝ) ^ 2 + ((p.2 - q.2 : ℚ) : ℝ) ^ 2) := by
  rw [euclideanNormOfDiff, EuclideanSpace.norm_eq]
  simp [Fin.sum_univ_two, WithLp.equiv_symm_pi_apply, Real.norm_eq_abs, sq_abs]

/-- C6: on equal-length trajectories, the computed distance at each step is
the Euclidean norm of the ego-to-human position difference at that step, and
it is non-negative. -/
theorem distances_euclidean (a : Archive) (h : a.ego.length = a.human.length)
    (i : ℕ) (hi : i < (distances a).length) :
    (distances a).getD i 0 =
      euclideanNormOfDiff (posAt a.ego i) (posAt a.human i) ∧
    0 ≤ (distances a).getD i 0 := by
  have hi' : i < (distancesSq a).length := by
    simpa only [distances, List.length_map] using hi
  have hlen : (distancesSq a).length = a.ego.length := by
    simp [distancesSq, seriesSub, column, h]
  have hego : i < a.ego.length := hlen ▸ hi'
  have hhum : i < a.human.length := h ▸ hego
  have hd : (distances a).getD i 0 = Real.sqrt (((distancesSq a).getD i 0 : ℚ) : ℝ) := by
    simp only [distances, List.getD_eq_getElem?_getD, List.getElem?_map,
      List.getElem?_eq_getElem hi', Option.map_some', Option.getD_some]
  have hsq : (distancesSq a).getD i 0 =
      ((posAt a.ego i).1 - (posAt a.human i).1) ^ 2 +
        ((posAt a.ego i).2 - (posAt a.human i).2) ^ 2 := by
    simp [distancesSq, seriesSub, column, posAt, List.getD_eq_getElem?_getD,
      List.getElem?_zipWith', List.getElem?_map,
      List.getElem?_eq_getElem hego, List.getElem?_eq_getElem hhum]
  refine ⟨?_, ?_⟩
  · rw [hd, hsq, euclideanNormOfDiff_eq]
    push_cast
    ring_nf
  · rw [hd]
    exact Real.sqrt_nonneg _

/-- Witness for C6 at a concrete archive and step. -/
theorem distances_euclidean_witness :
    (archAttentive.ego.length = archAttentive.human.length ∧
      0 < (distances archAttentive).length) ∧
    ((distances archAttentive).getD 0 0 =
        euclideanNormOfDiff (posAt archAttentive.ego 0) (posAt archAttentive.human 0) ∧
      0 ≤ (distances archAttentive).getD 0 0) :=
  ⟨⟨rfl, by simp only [distances, List.length_map]; decide⟩,
    distances_euclidean archAttentive rfl 0
      (by simp only [distances, List.length_map]; decide)⟩

/-- C5: when the alignment trims a leading beta element, that element has no
influence: replacing it by any value leaves the aligned series, and with it
every reported statistic (stdout block and file block), unchanged. -/
theorem trimmed_beta_no_influence (a : Archive) (x : ℚ)
    (h : a.beta.length = a.theta.length + 1) :
    keyStatsStdoutLines { a with beta := x :: a.beta.tail } = keyStatsStdoutLines a ∧
    keyStatsFileLines { a with beta := x :: a.beta.tail } = keyStatsFileLines a ∧
    finalBeta { a with beta := x :: a.beta.tail } = finalBeta a ∧
    beta_error { a with beta := x :: a.beta.tail } = beta_error a := by
  have hplot : beta_est_plot { a with beta := x :: a.beta.tail } = beta_est_plot a := by
    rcases hb : a.beta with _ | ⟨y, ys⟩
    · rw [hb] at h
      simp at h
    · have hTheta : ys.length = a.theta.length := by
        rw [hb] at h
        simpa using h
      rw [beta_est_plot, beta_est_plot]
      simp [hb, hTheta]
  refine ⟨?_, ?_, ?_, ?_⟩ <;>
    simp only [keyStatsStdoutLines, keyStatsFileLines, finalBeta, finalTheta, beta_error,
      finalEgoVelKmh, finalHumanVelKmh, distances, distancesSq, seriesSub, column,
      mean, stdR, variance, finalOf, hplot]

/-- A concrete archive with a one-longer beta series. -/
def archTrim : Archive :=
  { ego := [[0, 0, 0, 10], [0, 0, 0, 10]], human := [[0, 0, 0, 10], [0, 0, 0, 10]],
    beta := [3/10, 1/2], theta := [9/10],
    t_beta := 1/2, t_theta := "a",
    PassInter := true, Collision := false }

/-- Witness for C5: changing the trimmed leading beta value of `archTrim`
leaves every statistic unchanged. -/
theorem trimmed_beta_no_influence_witness :
    (archTrim.beta.length = archTrim.theta.length + 1) ∧
    (keyStatsStdoutLines { archTrim with beta := 7/10 :: archTrim.beta.tail } =
        keyStatsStdoutLines archTrim ∧
      keyStatsFileLines { archTrim with beta := 7/10 :: archTrim.beta.tail } =
        keyStatsFileLines archTrim ∧
      finalBeta { archTrim with beta := 7/10 :: archTrim.beta.tail } = finalBeta archTrim ∧
      beta_error { archTrim with beta := 7/10 :: archTrim.beta.tail } =
        beta_error archTrim) :=
  ⟨by decide, trimmed_beta_no_influence archTrim (7/10) (by decide)⟩

/-- Two trajectories of equal shape that may differ only in column 2. -/
def trajAgreesOffCol2 (t u : List (List ℚ)) : Prop :=
  t.length = u.length ∧
    ∀ p ∈ t.zip u, p.1.length = p.2.length ∧
      ∀ j < p.1.length, j ≠ 2 → p.1.getD j 0 = p.2.getD j 0

instance (t u : List (List ℚ)) : Decidable (trajAgreesOffCol2 t u) := by
  unfold trajAgreesOffCol2
  infer_instance

/-- Any column other than column 2 is identical on trajectories related by
`trajAgreesOffCol2`. -/
theorem column_eq_of_agree {t u : List (List ℚ)} (hagree : trajAgreesOffCol2 t u)
    {j : ℕ} (hj : j ≠ 2) : column t j = column u j := by
  obtain ⟨hlen, hrow⟩ := hagree
  apply List.ext_getElem
  · simp [column, hlen]
  · intro i h1 h2
    have hit : i < t.length := by simpa [column] using h1
    have hiu : i < u.length := by simpa [column] using h2
    have hzi : i < (t.zip u).length := by
      simp [List.length_zip]
      omega
    have hmem : (t.get ⟨i, hit⟩, u.get ⟨i, hiu⟩) ∈ t.zip u := by
      refine List.mem_iff_getElem.mpr ⟨i, hzi, ?_⟩
      simp [List.getElem_zip]
    obtain ⟨hrl, hre⟩ := hrow _ hmem
    have hrl' : (t.get ⟨i, hit⟩).length = (u.get ⟨i, hiu⟩).length := hrl
    have hre' : ∀ k < (t.get ⟨i, hit⟩).length, k ≠ 2 →
        (t.get ⟨i, hit⟩).getD k 0 = (u.get ⟨i, hiu⟩).getD k 0 := hre
    simp only [column, List.getElem_map]
    by_cases hjl : j < (t.get ⟨i, hit⟩).length
    · simpa using hre' j hjl hj
    · have hd1 : (t.get ⟨i, hit⟩).getD j 0 = 0 := by
        rw [List.getD_eq_getElem?_getD, List.getElem?_eq_none (by omega)]
        rfl
      have hd2 : (u.get ⟨i, hiu⟩).getD j 0 = 0 := by
        rw [List.getD_eq_getElem?_getD, List.getElem?_eq_none (by omega)]
        rfl
      simpa using hd1.trans hd2.symm

/-- C10: the statistics file content does not depend on `PassInter`,
`Collision`, or column 2 (heading) of either trajectory: two archives that
agree everywhere else produce byte-identical `key_statistics.txt` content. -/
theorem stats_independent_of_flags_heading (a b : Archive)
    (hego : trajAgreesOffCol2 a.ego b.ego)
    (hhum : trajAgreesOffCol2 a.human b.human)
    (hbeta : a.beta = b.beta) (htheta : a.theta = b.theta)
    (htb : a.t_beta = b.t_beta) (_htt : a.t_theta = b.t_theta) :
    keyStatsFileContent a = keyStatsFileContent b := by
  have hc0e : column a.ego 0 = column b.ego 0 := column_eq_of_agree hego (by omega)
  have hc1e : column a.ego 1 = column b.ego 1 := column_eq_of_agree hego (by omega)
  have hc3e : column a.ego 3 = column b.ego 3 := column_eq_of_agree hego (by omega)
  have hc0h : column a.human 0 = column b.human 0 := column_eq_of_agree hhum (by omega)
  have hc1h : column a.human 1 = column b.human 1 := column_eq_of_agree hhum (by omega)
  have hc3h : column a.human 3 = column b.human 3 := column_eq_of_agree hhum (by omega)
  simp only [keyStatsFileContent, keyStatsFileLines, finalBeta, finalTheta, beta_error,
    beta_est_plot, finalEgoVelKmh, finalHumanVelKmh, distances, distancesSq, seriesSub,
    mean, stdR, variance, finalOf, hbeta, htheta, htb,
    hc0e, hc1e, hc3e, hc0h, hc1h, hc3h]

/-- `archTrim` with flipped outcome flags and a different heading column. -/
def archTrimFlipped : Archive :=
  { ego := [[0, 0, 5, 10], [0, 0, 7, 10]], human := [[0, 0, 1, 10], [0, 0, 2, 10]],
    beta := [3/10, 1/2], theta := [9/10],
    t_beta := 1/2, t_theta := "a",
    PassInter := false, Collision := true }

/-- Witness for C10: `archTrim` and `archTrimFlipped` differ only in the
outcome flags and in column 2, and their statistics files coincide. -/
theorem stats_independent_witness :
    (trajAgreesOffCol2 archTrim.ego archTrimFlipped.ego ∧
      trajAgreesOffCol2 archTrim.human archTrimFlipped.human ∧
      archTrim.beta = archTrimFlipped.beta ∧ archTrim.theta = archTrimFlipped.theta ∧
      archTrim.t_beta = archTrimFlipped.t_beta ∧
      archTrim.t_theta = archTrimFlipped.t_theta ∧
      archTrim.PassInter ≠ archTrimFlipped.PassInter ∧
      archTrim.Collision ≠ archTrimFlipped.Collision) ∧
    keyStatsFileContent archTrim = keyStatsFileContent archTrimFlipped :=
  ⟨⟨by decide, by decide, rfl, rfl, rfl, rfl, by decide, by decide⟩,
    stats_independent_of_flags_heading archTrim archTrimFlipped
      (by decide) (by decide) rfl rfl rfl rfl⟩

/-- C9: the statistics block written to the file is identical, line for line,
to the block printed to standard output, and follows the fixed format: framed
by 60-character `=` separators, beta/theta values at 4 decimal places,
distances and velocities at 2 decimal places with `m` / `km/h` suffixes. -/
theorem stats_file_matches_stdout (a : Archive) :
    keyStatsFileLines a = keyStatsStdoutLines a ∧
    keyStatsFileContent a = String.join ((keyStatsFileLines a).map fun l => l ++ "\n") ∧
    (keyStatsFileLines a).length = 13 ∧
    (keyStatsFileLines a).getD 0 "" = sep60 ∧
    (keyStatsFileLines a).getD 2 "" = sep60 ∧
    (keyStatsFileLines a).getD 12 "" = sep60 ∧
    sep60.length = 60 ∧
    (keyStatsFileLines a).getD 1 "" = "Key Statistics" ∧
    (keyStatsFileLines a).getD 3 "" =
      "Final Beta Estimation: " ++ fmtFixed (finalBeta a) 4 ∧
    (keyStatsFileLines a).getD 4 "" =
      "Beta Estimation Error (Final): " ++ fmtFixed |finalBeta a - a.t_beta| 4 ∧
    (keyStatsFileLines a).getD 5 "" =
      "Mean Beta Estimation Error: " ++ fmtFixed (mean (beta_error a)) 4 ∧
    (keyStatsFileLines a).getD 6 "" =
      "Std Beta Estimation Error: " ++ fmtFixedReal (stdR (beta_error a)) 4 ∧
    (keyStatsFileLines a).getD 7 "" =
      "Final Theta Probability: " ++ fmtFixed (finalTheta a) 4 ∧
    (keyStatsFileLines a).getD 8 "" =
      "Min Distance Between Vehicles: " ++ fmtFixedReal (listMin (distances a)) 2 ++ " m" ∧
    (keyStatsFileLines a).getD 9 "" =
      "Mean Distance Between Vehicles: " ++ fmtFixedReal (meanR (distances a)) 2 ++ " m" ∧
    (keyStatsFileLines a).getD 10 "" =
      "Final Ego Velocity: " ++ fmtFixed (finalEgoVelKmh a) 2 ++ " km/h" ∧
    (keyStatsFileLines a).getD 11 "" =
      "Final Human Velocity: " ++ fmtFixed (finalHumanVelKmh a) 2 ++ " km/h" := by
  refine ⟨rfl, rfl, rfl, rfl, rfl, rfl, by decide, rfl, rfl, rfl, rfl, rfl, rfl,
    rfl, rfl, rfl, rfl⟩

/-- Formatting a real number that happens to be rational agrees with the
rational formatter. -/
theorem fmtFixedReal_ofRat (q : ℚ) (d : ℕ) : fmtFixedReal (q : ℝ) d = fmtFixed q d := by
  rw [fmtFixedReal, fmtFixed]
  congr 1
  rw [show ((q : ℝ) * 10 ^ d + 1 / 2) = ((q * 10 ^ d + 1 / 2 : ℚ) : ℝ) by push_cast; ring,
    Rat.floor_cast]

/-- The scenario-A archive of the spec: 5 constant identical rows with
velocity 10, equal-length beta and theta series, `t_beta = 0.5`,
`t_theta = "attentive"`. -/
def scenA : NpzFile :=
  { ego := some [[0, 0, 0, 10], [0, 0, 0, 10], [0, 0, 0, 10], [0, 0, 0, 10], [0, 0, 0, 10]],
    human := some [[0, 0, 0, 10], [0, 0, 0, 10], [0, 0, 0, 10], [0, 0, 0, 10], [0, 0, 0, 10]],
    beta := some [1/2, 1/2, 1/2, 1/2],
    theta := some [9/10, 9/10, 9/10, 9/10],
    t_beta := some (1/2), t_theta := some "attentive",
    PassInter := some true, Collision := some false }

/-- The loaded form of `scenA`. -/
def archA : Archive :=
  { ego := [[0, 0, 0, 10], [0, 0, 0, 10], [0, 0, 0, 10], [0, 0, 0, 10], [0, 0, 0, 10]],
    human := [[0, 0, 0, 10], [0, 0, 0, 10], [0, 0, 0, 10], [0, 0, 0, 10], [0, 0, 0, 10]],
    beta := [1/2, 1/2, 1/2, 1/2],
    theta := [9/10, 9/10, 9/10, 9/10],
    t_beta := 1/2, t_theta := "attentive",
    PassInter := true, Collision := false }

set_option maxRecDepth 8000 in
/-- C4: end-to-end scenario A.  The run succeeds, produces both output
paths, the statistics are final beta error 0, mean/std beta error 0, final
theta 0.9, min/mean distance 0, final velocities 36 km/h, and the written
statistics file shows exactly these values. -/
theorem scenarioA_end_to_end :
    analyze_and_visualize_results scenA "./result" =
      some { pngPath := "./result/analysis_results.png",
             statsPath := "./result/key_statistics.txt",
             statsContent :=
              sep60 ++ "\n" ++
              "Key Statistics\n" ++
              sep60 ++ "\n" ++
              "Final Beta Estimation: 0.5000\n" ++
              "Beta Estimation Error (Final): 0.0000\n" ++
              "Mean Beta Estimation Error: 0.0000\n" ++
              "Std Beta Estimation Error: 0.0000\n" ++
              "Final Theta Probability: 0.9000\n" ++
              "Min Distance Between Vehicles: 0.00 m\n" ++
              "Mean Distance Between Vehicles: 0.00 m\n" ++
              "Final Ego Velocity: 36.00 km/h\n" ++
              "Final Human Velocity: 36.00 km/h\n" ++
              sep60 ++ "\n" } ∧
    |finalBeta archA - archA.t_beta| = 0 ∧
    mean (beta_error archA) = 0 ∧
    stdR (beta_error archA) = 0 ∧
    finalTheta archA = 9/10 ∧
    listMin (distances archA) = 0 ∧
    meanR (distances archA) = 0 ∧
    finalEgoVelKmh archA = 36 ∧
    finalHumanVelKmh archA = 36 := by
  have herr : beta_error archA = [0, 0, 0, 0] := by
    norm_num [beta_error, beta_est_plot, archA]
  have habs : |finalBeta archA - archA.t_beta| = 0 := by
    norm_num [finalBeta, beta_est_plot, finalOf, archA]
  have hmean : mean (beta_error archA) = 0 := by
    rw [herr]
    norm_num [mean]
  have hvar : variance (beta_error archA) = 0 := by
    rw [herr]
    norm_num [variance, mean]
  have hstd : stdR (beta_error archA) = 0 := by
    rw [stdR, hvar]
    simp
  have hsq : distancesSq archA = [0, 0, 0, 0, 0] := by
    norm_num [distancesSq, seriesSub, column, archA]
  have hdist : distances archA = [0, 0, 0, 0, 0] := by
    rw [distances, hsq]
    norm_num
  have hmin : listMin (distances archA) = 0 := by
    rw [hdist]
    simp [listMin]
  have hmeand : meanR (distances archA) = 0 := by
    rw [hdist]
    norm_num [meanR]
  have hvege : finalEgoVelKmh archA = 36 := by
    norm_num [finalEgoVelKmh, finalOf, column, archA]
  have hvegh : finalHumanVelKmh archA = 36 := by
    norm_num [finalHumanVelKmh, finalOf, column, archA]
  have hstdc : stdR (beta_error archA) = ((0:ℚ) : ℝ) := by
    rw [hstd]
    norm_num
  have hminc : listMin (distances archA) = ((0:ℚ) : ℝ) := by
    rw [hmin]
    norm_num
  have hmeandc : meanR (distances archA) = ((0:ℚ) : ℝ) := by
    rw [hmeand]
    norm_num
  have hfb : finalBeta archA = 1/2 := rfl
  have hft : finalTheta archA = 9/10 := rfl
  have hf1 : fmtFixed (finalBeta archA) 4 = "0.5000" := by
    rw [hfb, fmtFixed, show ⌊((1:ℚ)/2) * 10 ^ 4 + 1 / 2⌋ = 5000 by norm_num]
    decide
  have hf0 : fmtFixed (0:ℚ) 4 = "0.0000" := by
    rw [fmtFixed, show ⌊((0:ℚ)) * 10 ^ 4 + 1 / 2⌋ = 0 by norm_num]
    decide
  have hf9 : fmtFixed (finalTheta archA) 4 = "0.9000" := by
    rw [hft, fmtFixed, show ⌊((9:ℚ)/10) * 10 ^ 4 + 1 / 2⌋ = 9000 by norm_num]
    decide
  have hr0 : fmtFixedReal ((0:ℚ) : ℝ) 2 = "0.00" := by
    rw [fmtFixedReal_ofRat, fmtFixed, show ⌊((0:ℚ)) * 10 ^ 2 + 1 / 2⌋ = 0 by norm_num]
    decide
  have hr04 : fmtFixedReal ((0:ℚ) : ℝ) 4 = "0.0000" := by
    rw [fmtFixedReal_ofRat, fmtFixed, show ⌊((0:ℚ)) * 10 ^ 4 + 1 / 2⌋ = 0 by norm_num]
    decide
  have hf36 : fmtFixed (36:ℚ) 2 = "36.00" := by
    rw [fmtFixed, show ⌊((36:ℚ)) * 10 ^ 2 + 1 / 2⌋ = 3600 by norm_num]
    decide
  have hcontent :
      keyStatsFileContent archA =
        sep60 ++ "\n" ++
        "Key Statistics\n" ++
        sep60 ++ "\n" ++
        "Final Beta Estimation: 0.5000\n" ++
        "Beta Estimation Error (Final): 0.0000\n" ++
        "Mean Beta Estimation Error: 0.0000\n" ++
        "Std Beta Estimation Error: 0.0000\n" ++
        "Final Theta Probability: 0.9000\n" ++
        "Min Distance Between Vehicles: 0.00 m\n" ++
        "Mean Distance Between Vehicles: 0.00 m\n" ++
        "Final Ego Velocity: 36.00 km/h\n" ++
        "Final Human Velocity: 36.00 km/h\n" ++
        sep60 ++ "\n" := by
    rw [keyStatsFileContent, keyStatsFileLines, habs, hmean, hf0,
      hstdc, hr04, hf1, hf9, hminc, hmeandc, hr0, hvege, hvegh, hf36]
    decide
  have hload : loadArchive scenA = some archA := rfl
  refine ⟨?_, habs, hmean, hstd, hft, hmin, hmeand, hvege, hvegh⟩
  rw [analyze_and_visualize_results, hload, Option.map_some', hcontent]
  rfl

end AnalyzeResults
